import Mathlib

/-!
Shallow embedding of the MBTA dispatch orchestrator
(`src/exchange_agent/stategraph_orchestrator.py` and
`src/exchange_agent/slim_client.py`).

Network interactions are passed in as explicit outcome parameters
(`Except` values / outcome functions), so every definition is an
executable rendering of the corresponding Python function.
-/

namespace MBTA

/-! ## Python string helpers (semantics of `in`, `.lower()`, `.strip()`) -/

/-- Python `str.lower()` on the ASCII range. -/
def pyLower (s : String) : String := String.mk (s.toList.map Char.toLower)

/-- Occurrence of `needle` as a contiguous run inside `hay` (Python `needle in hay`). -/
def subOccurs (needle : List Char) : List Char → Bool
  | [] => needle.isEmpty
  | c :: rest => needle.isPrefixOf (c :: rest) || subOccurs needle rest

/-- Python substring test `needle in hay`. -/
def pyIn (needle hay : String) : Bool := subOccurs needle.toList hay.toList

/-- Characters removed by Python `str.strip()`. -/
def pySpace (c : Char) : Bool :=
  c = ' ' || c = '\t' || c = '\n' || c = '\r' || c = '\x0b' || c = '\x0c'

/-- Python `str.strip()`. -/
def pyStrip (s : String) : String :=
  String.mk (((s.toList.dropWhile pySpace).reverse.dropWhile pySpace).reverse)

/-! ## Data model -/

/-- One registry record as assembled in `get_agent_catalog_from_registry`. -/
structure AgentInfo where
  agent_id : String
  agent_url : String
  description : String
  capabilities : List String
  alive : Bool
deriving DecidableEq, Repr

/-- `AgentConfig` dataclass of the orchestrator. -/
structure AgentConfig where
  name : String
  url : String
  port : Nat
  description : String
  capabilities : List String
  discovered_from_registry : Bool
deriving DecidableEq, Repr

/-! ## Catalog cache (module globals `_agent_catalog_cache` / `_catalog_cache_time`) -/

/-- The two module-global cache variables: `_agent_catalog_cache` (None or a
list) and `_catalog_cache_time` (None or a timestamp, held in seconds). -/
structure CacheState where
  catalogCache : Option (List AgentInfo)
  catalogCacheTime : Option Nat
deriving DecidableEq, Repr

/-- `_catalog_cache_ttl = timedelta(minutes=5)`, in seconds. -/
def catalog_cache_ttl : Nat := 300

/-- Truthiness-and-TTL test guarding the cache hit:
`if _agent_catalog_cache and _catalog_cache_time:` followed by
`datetime.now() - _catalog_cache_time < _catalog_cache_ttl`.
An empty cached list is falsy in Python, so it fails the first test. -/
def cache_hit (s : CacheState) (now : Nat) : Bool :=
  match s.catalogCache, s.catalogCacheTime with
  | some c, some t => !c.isEmpty && decide (now - t < catalog_cache_ttl)
  | _, _ => false

/-- Result of one `get_agent_catalog_from_registry` call: the returned list,
whether the registry was contacted, and the cache state afterwards. -/
structure CatalogCall where
  result : List AgentInfo
  networkUsed : Bool
  state : CacheState
deriving DecidableEq, Repr

/-- `get_agent_catalog_from_registry`. `fetch` is the outcome of the whole
`try` block that talks to the registry (`Except.ok` carries the `agents_info`
list it builds; `Except.error` is any exception raised during the fetch).
On a cache hit the cached list is returned with no network use; on fetch
success the result is cached; on fetch failure the function returns `[]`
and leaves the cache untouched. -/
def get_agent_catalog_from_registry (s : CacheState) (now : Nat)
    (fetch : Except Unit (List AgentInfo)) : CatalogCall :=
  if cache_hit s now then
    ⟨s.catalogCache.getD [], false, s⟩
  else
    match fetch with
    | Except.ok agents_info => ⟨agents_info, true, ⟨some agents_info, some now⟩⟩
    | Except.error _ => ⟨[], true, s⟩

/-! ## Transport: `call_agent_api` (HTTP A2A) and `SlimAgentClient.call_agent` -/

/-- The JSON envelope returned by an agent, as `call_agent_api` probes it:
`typ` is `result["type"]`; `payload` is `some (payload.get "text")` when the
`"payload"` key is present (inner `none` when the `"text"` key is absent);
`rawError` / `rawResponse` are the truthiness of `result.get("error")` and
the value of `result.get("response", "")` when the raw envelope is returned
unchanged by the fall-through branch. -/
structure A2AEnvelope where
  typ : String
  payload : Option (Option String)
  rawError : Bool
  rawResponse : String
deriving DecidableEq, Repr

/-- Outcome of the single `client.post` made by `call_agent_api`:
`httpError` is any `httpx.HTTPError` (connection error, timeout, or a non-2xx
status via `raise_for_status`); `exn` is any other exception (which the
function does not catch and therefore propagates); `ok` is a parsed JSON
envelope. -/
inductive HttpOutcome where
  | httpError (e : String)
  | exn (e : String)
  | ok (env : A2AEnvelope)
deriving DecidableEq, Repr

/-- Projection of the dict `call_agent_api` hands back, restricted to the keys
its caller reads: `result.get("response", "")`, truthiness of
`result.get("error")`, and the agent name
(`agent_used` / `agent_attempted`). -/
structure CallResult where
  response : String
  error : Bool
  agent : String
deriving DecidableEq, Repr

/-- `call_agent_api`. The second component counts transport attempts made:
the function issues exactly one HTTP POST and never retries on another
transport. `Except.error` models an exception escaping the function. -/
def call_agent_api (agentName : String) (outcome : HttpOutcome) :
    Except String CallResult × Nat :=
  match outcome with
  | HttpOutcome.ok env =>
    if env.typ == "response" && env.payload.isSome then
      (Except.ok ⟨(env.payload.getD none).getD "", false, agentName⟩, 1)
    else
      (Except.ok ⟨env.rawResponse, env.rawError, agentName⟩, 1)
  | HttpOutcome.httpError e =>
    (Except.ok ⟨"Error calling agent " ++ agentName ++ ": " ++ e, true, agentName⟩, 1)
  | HttpOutcome.exn e => (Except.error e, 1)

/-- A SLIM `SendMessageResponse` as `call_agent` probes it: `extractedText`
is the text of the first part reachable through the `root`/`result`/`parts`
attribute chain (when any), `strRepr` is `str(response)`. -/
structure SlimResponse where
  extractedText : Option String
  strRepr : String
deriving DecidableEq, Repr

/-- The dict returned by `SlimAgentClient.call_agent` on success. -/
structure SlimCallResult where
  response : String
  transport : String
  agent : String
deriving DecidableEq, Repr

/-- Text extraction in `SlimAgentClient.call_agent`: `response_text` starts
empty, is set from the first part carrying text, and falls back to
`str(response)` when still empty. -/
def slimResponseText (resp : SlimResponse) : String :=
  let t := resp.extractedText.getD ""
  if t == "" then resp.strRepr else t

/-- `SlimAgentClient.call_agent`. `clients` is the set of initialized client
names; `send` is the outcome of the single `client.send_message` call. The
second component counts transport attempts: an unknown agent raises
`ValueError` before any attempt, and a send failure is re-raised with no
retry on any other transport. -/
def SlimAgentClient.call_agent (clients : List String) (agent_name : String)
    (send : Except String SlimResponse) : Except String SlimCallResult × Nat :=
  if clients.contains agent_name then
    match send with
    | Except.ok resp => (Except.ok ⟨slimResponseText resp, "slim", agent_name⟩, 1)
    | Except.error e => (Except.error e, 1)
  else
    (Except.error ("Unknown agent: " ++ agent_name), 0)

/-! ## Semantic discovery -/

/-- Break `cs` at the first occurrence of `sep`, returning the pieces before
and after it (`none` when `sep` does not occur). -/
def breakOnSep (sep : List Char) : List Char → Option (List Char × List Char)
  | [] => none
  | c :: rest =>
    if sep.isPrefixOf (c :: rest) then some ([], (c :: rest).drop sep.length)
    else
      match breakOnSep sep rest with
      | some pq => some (c :: pq.1, pq.2)
      | none => none

/-- Decimal parse of a port component (`none` on empty or non-digit input). -/
def parsePort (cs : List Char) : Option Nat :=
  if cs.isEmpty then none
  else if cs.all (fun c => c.isDigit) then
    some (cs.foldl (fun n c => 10 * n + (c.toNat - 48)) 0)
  else none

/-- `urlparse` restricted to the `scheme://host[:port][/...]` shapes the
registry hands out: returns (scheme, lowercased hostname, port). -/
def pyUrlparse (url : String) : String × String × Option Nat :=
  let cs := url.toList
  let sr :=
    match breakOnSep [':', '/', '/'] cs with
    | some pq => (pq.1, pq.2)
    | none => (([] : List Char), cs)
  let netloc := sr.2.takeWhile (fun c => c != '/')
  match breakOnSep [':'] netloc with
  | some hp => (String.mk sr.1, pyLower (String.mk hp.1), parsePort hp.2)
  | none => (String.mk sr.1, pyLower (String.mk netloc), none)

/-- Construction of an `AgentConfig` from a catalog record, as done both in
`semantic_agent_discovery` and in `execute_agents_node`. -/
def mkAgentConfig (info : AgentInfo) : AgentConfig :=
  let parsed := pyUrlparse info.agent_url
  { name := info.agent_id
    url := (if parsed.1 == "" then "http" else parsed.1) ++ "://" ++ parsed.2.1
    port := (parsed.2.2).getD 80
    description := info.description
    capabilities := info.capabilities
    discovered_from_registry := true }

/-- `next((a for a in agent_catalog if a['agent_id'] == agent_id), None)`. -/
def findAgent (catalog : List AgentInfo) (agent_id : String) : Option AgentInfo :=
  catalog.find? (fun a => a.agent_id == agent_id)

/-- `semantic_agent_discovery`. `llm` is the outcome of the OpenAI call plus
JSON parse (`Except.error` for any exception in the `try` block); on success
it carries `result.get("matched_agents", [])` as an optional list. An empty
catalog short-circuits to `[]`; matched ids absent from the catalog are
skipped with a warning. -/
def semantic_agent_discovery (agent_catalog : List AgentInfo)
    (llm : Except Unit (Option (List String))) : List AgentConfig :=
  if agent_catalog.isEmpty then []
  else
    match llm with
    | Except.error _ => []
    | Except.ok matchedOpt =>
      (matchedOpt.getD []).filterMap (fun agent_id =>
        (findAgent agent_catalog agent_id).map mkAgentConfig)

/-- Lexical cue lists of `semantic_discovery_node`. -/
def alert_words : List String := ["alert", "delay", "disruption"]

/-- Cues for the "stops" intent. -/
def stop_words : List String := ["stop", "station", "location"]

/-- Cues for the "trip_planning" intent. -/
def route_words : List String := ["route", "planning", "direction", "trip"]

/-- Intent inference in `semantic_discovery_node`: the first matched agent's
lowercased description is probed for cue substrings; default
("general", 0.5) when nothing matched. -/
def infer_intent : List AgentConfig → String × ℚ
  | [] => ("general", 1/2)
  | first :: _ =>
    let desc_lower := pyLower first.description
    if alert_words.any (fun w => pyIn w desc_lower) then ("alerts", 17/20)
    else if stop_words.any (fun w => pyIn w desc_lower) then ("stops", 17/20)
    else if route_words.any (fun w => pyIn w desc_lower) then ("trip_planning", 17/20)
    else ("transit_info", 3/4)

/-- The `llm_matching_decision` dict stored in the state. -/
structure LlmDecision where
  matched_agents : List String
  agent_configs : List (String × String)
deriving DecidableEq, Repr

/-! ## Execute node -/

/-- Output of `execute_agents_node`: the state fields it writes
(`matched_agents` is carried through unchanged by the `**state` spread),
plus `calls`, the trace of `(agent_id, message)` invocations of
`call_agent_api` actually performed by the loop. -/
structure ExecOutput where
  matched_agents : List String
  agent_responses : List CallResult
  agents_called : List String
  calls : List (String × String)
deriving DecidableEq, Repr

/-- The `for agent_id in matched_agent_ids` loop of `execute_agents_node`:
an id absent from the catalog is skipped (`continue`); otherwise the agent is
called with the original `user_message`, a returned error dict is labelled
`"(failed)"`, a raised exception is caught and labelled `"(error)"`, and the
loop proceeds with the remaining ids in every case. `net` gives the HTTP
outcome per agent id. -/
def execAgentsLoop (catalog : List AgentInfo) (userMessage : String)
    (net : String → HttpOutcome) :
    List String → List CallResult × List String × List (String × String)
  | [] => ([], [], [])
  | agent_id :: rest =>
    let tail := execAgentsLoop catalog userMessage net rest
    match findAgent catalog agent_id with
    | none => tail
    | some _info =>
      match call_agent_api agent_id (net agent_id) with
      | (Except.ok r, _) =>
        (r :: tail.1,
         (if r.error then agent_id ++ " (failed)" else agent_id) :: tail.2.1,
         (agent_id, userMessage) :: tail.2.2)
      | (Except.error e, _) =>
        (⟨"Error calling agent " ++ agent_id ++ ": " ++ e, true, agent_id⟩ :: tail.1,
         (agent_id ++ " (error)") :: tail.2.1,
         (agent_id, userMessage) :: tail.2.2)

/-- `execute_agents_node`, with the fresh catalog obtained at execution time
passed in as `catalog`. -/
def execute_agents_node (catalog : List AgentInfo) (userMessage : String)
    (net : String → HttpOutcome) (matched : List String) : ExecOutput :=
  let out := execAgentsLoop catalog userMessage net matched
  ⟨matched, out.1, out.2.1, out.2.2⟩

/-- The `agents_called` label the loop produces for a catalog-resident agent:
plain id on success, `" (failed)"` when the call returned an error dict,
`" (error)"` when it raised. -/
def call_label (net : String → HttpOutcome) (agent_id : String) : String :=
  match call_agent_api agent_id (net agent_id) with
  | (Except.ok r, _) => if r.error then agent_id ++ " (failed)" else agent_id
  | (Except.error _, _) => agent_id ++ " (error)"

/-- The `agent_responses` entry the loop produces for a catalog-resident
agent. -/
def call_record (net : String → HttpOutcome) (agent_id : String) : CallResult :=
  match call_agent_api agent_id (net agent_id) with
  | (Except.ok r, _) => r
  | (Except.error e, _) =>
    ⟨"Error calling agent " ++ agent_id ++ ": " ++ e, true, agent_id⟩

/-! ## Synthesis node -/

/-- Greeting cue words of `synthesize_response_node`. -/
def greeting_words : List String := ["hi", "hello", "hey", "good morning", "whats up"]

/-- The greeting reply on the no-match path. -/
def greeting_message : String :=
  "Hello! I'm MBTA Agntcy, your Boston transit assistant. I use semantic agent discovery to connect you with the right transit information. What would you like to know?"

/-- The capability-hint reply on the no-match path. -/
def capability_hint_message : String :=
  "I'm specialized in Boston MBTA transit information. I couldn't find agents that match your query - could you try asking about:\n• Service alerts and delays\n• Finding stops and stations\n• Planning routes and trips"

/-- The advisory note appended when some agents failed but text was produced. -/
def advisory_note : String :=
  "\n\n⚠️ Note: Some agents were unavailable. Response may be incomplete."

/-- Reply when errors occurred and no agent produced usable text. -/
def all_failed_message : String :=
  "I'm sorry, but I'm having trouble connecting to the necessary agents right now. Please try again in a moment."

/-- Reply when no errors occurred but no agent produced usable text. -/
def incomplete_message : String :=
  "I received your request but couldn't generate a complete response. Please try rephrasing your question."

/-- The response-collecting loop of `synthesize_response_node`: error results
set `had_errors` and are skipped; non-error results contribute their text when
it is non-empty and not whitespace-only. -/
def collectResponses : List CallResult → List String × Bool
  | [] => ([], false)
  | r :: rest =>
    let tail := collectResponses rest
    if r.error then (tail.1, true)
    else if r.response != "" && pyStrip r.response != "" then
      (r.response :: tail.1, tail.2)
    else tail

/-- `synthesize_response_node`, returning the `final_response` it writes.
With no matched agents it short-circuits to a greeting or a capability hint
by lowercased-substring cues; otherwise it joins the collected texts with a
blank line (`"\n\n".join(filter(None, responses))`), appends the advisory
note when errors occurred, and falls back to fixed messages when no text was
collected. -/
def synthesize_response_node (matched_agents : List String) (user_message : String)
    (agent_responses : List CallResult) : String :=
  if matched_agents.isEmpty then
    let message := pyLower user_message
    if greeting_words.any (fun w => pyIn w message) then greeting_message
    else capability_hint_message
  else
    let collected := collectResponses agent_responses
    if !collected.1.isEmpty then
      String.intercalate "\n\n" (collected.1.filter (fun s => s != "")) ++
        (if collected.2 then advisory_note else "")
    else
      if collected.2 then all_failed_message else incomplete_message

/-! ## Routing and graph structure -/

/-- Targets of the conditional edge after discovery. -/
inductive Route where
  | execute_agents
  | synthesize
deriving DecidableEq, Repr

/-- `route_after_discovery`: Python truthiness of `matched_agents`. -/
def route_after_discovery (matched_agents : List String) : Route :=
  if !matched_agents.isEmpty then Route.execute_agents else Route.synthesize

/-- `route_after_execution`: always synthesize. -/
def route_after_execution : Route := Route.synthesize

/-- The nodes added in `build_mbta_graph`, in registration order. -/
def graph_nodes : List String := ["semantic_discovery", "execute_agents", "synthesize"]

/-- Entry point set in `build_mbta_graph`. -/
def graph_entry_point : String := "semantic_discovery"

/-! ## Pipeline and orchestrator entry point -/

/-- The state fields relevant to the final output of one graph run, plus the
`calls` trace of agent invocations performed during `Execute`. -/
structure PipelineState where
  user_message : String
  conversation_id : String
  intent : String
  confidence : ℚ
  matched_agents : List String
  agents_called : List String
  agent_responses : List CallResult
  final_response : String
  llm_matching_decision : Option LlmDecision
  calls : List (String × String)
deriving DecidableEq, Repr

/-- One full graph run: `semantic_discovery_node`, the conditional edge
`route_after_discovery`, then `execute_agents_node` (which re-fetches the
catalog) when agents matched, then `synthesize_response_node`. `fetch1` and
`fetch2` are the registry outcomes of the two catalog fetches, `now1`/`now2`
their clock readings, `llm` the matcher outcome, and `net` the per-agent HTTP
outcomes. -/
def run_graph (cs : CacheState) (now1 now2 : Nat)
    (fetch1 fetch2 : Except Unit (List AgentInfo))
    (llm : Except Unit (Option (List String)))
    (net : String → HttpOutcome)
    (user_message conversation_id : String) : PipelineState :=
  let cat1 := get_agent_catalog_from_registry cs now1 fetch1
  let matched_configs := semantic_agent_discovery cat1.result llm
  let matched_ids := matched_configs.map (fun a => a.name)
  let ic := infer_intent matched_configs
  let decision : LlmDecision :=
    ⟨matched_ids, matched_configs.map (fun a => (a.name, a.description))⟩
  match route_after_discovery matched_ids with
  | Route.synthesize =>
    { user_message, conversation_id
      intent := ic.1, confidence := ic.2
      matched_agents := matched_ids
      agents_called := [], agent_responses := []
      final_response := synthesize_response_node matched_ids user_message []
      llm_matching_decision := some decision
      calls := [] }
  | Route.execute_agents =>
    let cat2 := get_agent_catalog_from_registry cat1.state now2 fetch2
    let ex := execute_agents_node cat2.result user_message net matched_ids
    { user_message, conversation_id
      intent := ic.1, confidence := ic.2
      matched_agents := ex.matched_agents
      agents_called := ex.agents_called
      agent_responses := ex.agent_responses
      final_response :=
        synthesize_response_node ex.matched_agents user_message ex.agent_responses
      llm_matching_decision := some decision
      calls := ex.calls }

/-- The `metadata` dict assembled by `process_message`. -/
structure Metadata where
  conversation_id : String
  graph_execution : String
  llm_matching : Option LlmDecision
  discovery : String
  registry_url : String
deriving DecidableEq, Repr

/-- The keys of the `metadata` dict literal in `process_message`, in source
order. -/
def metadata_keys : List String :=
  ["conversation_id", "graph_execution", "llm_matching", "discovery", "registry_url"]

/-- The record returned by `StateGraphOrchestrator.process_message`. -/
structure ProcessResult where
  response : String
  intent : String
  confidence : ℚ
  matched_agents : List String
  agents_called : List String
  metadata : Metadata
deriving DecidableEq, Repr

/-- `StateGraphOrchestrator.process_message`: runs the graph and packages the
final state. `registry_url` is the module-level `REGISTRY_URL` value. -/
def process_message (registry_url : String) (cs : CacheState) (now1 now2 : Nat)
    (fetch1 fetch2 : Except Unit (List AgentInfo))
    (llm : Except Unit (Option (List String)))
    (net : String → HttpOutcome)
    (user_message conversation_id : String) : ProcessResult :=
  let final_state := run_graph cs now1 now2 fetch1 fetch2 llm net user_message conversation_id
  { response := final_state.final_response
    intent := final_state.intent
    confidence := final_state.confidence
    matched_agents := final_state.matched_agents
    agents_called := final_state.agents_called
    metadata :=
      { conversation_id
        graph_execution := "completed"
        llm_matching := final_state.llm_matching_decision
        discovery := "semantic-description-based"
        registry_url } }

/-- Outcome of `StateGraphOrchestrator.startup_validation`: `failed` models
the `RuntimeError` raised when the health probe fails; `ok` carries the
catalog obtained afterwards and whether the empty-catalog warning was
logged. -/
inductive StartupResult where
  | failed (msg : String)
  | ok (catalog : List AgentInfo) (warned : Bool)
deriving DecidableEq, Repr

/-- `StateGraphOrchestrator.startup_validation`: raises only when
`validate_registry_connection` reports the registry unreachable
(`registry_ok = false`); a failing catalog fetch afterwards merely logs a
warning and startup completes. -/
def startup_validation (registry_url : String) (registry_ok : Bool)
    (cs : CacheState) (now : Nat)
    (fetch : Except Unit (List AgentInfo)) : StartupResult :=
  if !registry_ok then
    StartupResult.failed
      ("Registry at " ++ registry_url ++
        " is not accessible. Cannot start without registry connectivity.")
  else
    let cat := get_agent_catalog_from_registry cs now fetch
    StartupResult.ok cat.result cat.result.isEmpty

/-! ## Sample data for concrete instantiations -/

/-- A sample catalog record, shaped like the registry examples in the
source's docstring. -/
def sampleAlerts : AgentInfo :=
  ⟨"mbta-alerts", "http://96.126.111.107:8001",
    "Provides real-time service alerts and delay information", ["alerts"], true⟩

/-! ## Helper lemmas -/

/-- The response-collecting loop computes the non-blank success texts in
order, and whether any error result occurred. -/
theorem collectResponses_eq (rs : List CallResult) :
    collectResponses rs =
      (rs.filterMap (fun r =>
         if !r.error && r.response != "" && pyStrip r.response != "" then some r.response
         else none),
       rs.any (fun r => r.error)) := by
  induction rs with
  | nil => rfl
  | cons r rest ih =>
    simp only [collectResponses, ih, List.filterMap_cons, List.any_cons]
    cases he : r.error with
    | true => simp [he]
    | false =>
      cases hb : (r.response != "" && pyStrip r.response != "") with
      | true => simp [he, hb]
      | false => simp [he, hb]

/-- The execute loop characterized by `filterMap`/`filter` over the matched
ids: every id found in the catalog contributes exactly one response, one
label and one call, in order; ids not found contribute nothing. -/
theorem execAgentsLoop_eq (catalog : List AgentInfo) (q : String)
    (net : String → HttpOutcome) (ms : List String) :
    execAgentsLoop catalog q net ms =
      (ms.filterMap (fun i => (findAgent catalog i).map (fun _ => call_record net i)),
       ms.filterMap (fun i =>
         if (findAgent catalog i).isSome then some (call_label net i) else none),
       (ms.filter (fun i => (findAgent catalog i).isSome)).map (fun i => (i, q))) := by
  induction ms with
  | nil => rfl
  | cons i rest ih =>
    simp only [execAgentsLoop, ih]
    cases hf : findAgent catalog i with
    | none => simp [hf]
    | some info =>
      cases hc : call_agent_api i (net i) with
      | mk res n =>
        cases res with
        | ok r => simp [hf, hc, call_record, call_label]
        | error e => simp [hf, hc, call_record, call_label]

/-- The response entry produced for a found agent carries that agent's id. -/
theorem call_record_agent (net : String → HttpOutcome) (j : String) :
    (call_record net j).agent = j := by
  unfold call_record call_agent_api
  cases net j with
  | ok env =>
    cases hb : (env.typ == "response" && env.payload.isSome) with
    | true => simp [hb]
    | false => simp [hb]
  | httpError e => rfl
  | exn e => rfl

/-- The non-blank success texts contain no empty string, so the redundant
`filter(None, ...)` of the source is the identity on them. -/
theorem filter_texts_no_empty (rs : List CallResult) :
    (rs.filterMap (fun r =>
       if !r.error && r.response != "" && pyStrip r.response != "" then some r.response
       else none)).filter (fun s => s != "") =
    rs.filterMap (fun r =>
       if !r.error && r.response != "" && pyStrip r.response != "" then some r.response
       else none) := by
  rw [List.filter_eq_self]
  intro s hs
  rw [List.mem_filterMap] at hs
  obtain ⟨r, _, hr⟩ := hs
  cases hc : (!r.error && r.response != "" && pyStrip r.response != "") with
  | false => rw [hc] at hr; simp at hr
  | true =>
    rw [hc] at hr
    simp only [if_true] at hr
    cases hr
    simp only [Bool.and_eq_true] at hc
    exact hc.1.2

/-- The `llm_matching_decision` recorded by a run depends only on the
discovery stage (first catalog fetch and matcher outcome), not on the
execution stage. -/
theorem run_graph_llm_decision (cs : CacheState) (now1 now2 : Nat)
    (f1 f2 : Except Unit (List AgentInfo))
    (llm : Except Unit (Option (List String)))
    (net : String → HttpOutcome) (q cid : String) :
    (run_graph cs now1 now2 f1 f2 llm net q cid).llm_matching_decision =
      some ⟨(semantic_agent_discovery
               (get_agent_catalog_from_registry cs now1 f1).result llm).map (fun a => a.name),
            (semantic_agent_discovery
               (get_agent_catalog_from_registry cs now1 f1).result llm).map
              (fun a => (a.name, a.description))⟩ := by
  simp only [run_graph]
  cases route_after_discovery ((semantic_agent_discovery
      (get_agent_catalog_from_registry cs now1 f1).result llm).map (fun a => a.name)) <;> rfl

/-! ## Claim theorems -/

/-- C1 counterexample: with a stale prior snapshot (age beyond the TTL) and a
failing refresh, `get_agent_catalog_from_registry` returns `[]` — not the
cached snapshot — and a cold-start catalog-fetch failure lets
`startup_validation` complete normally (with a warning) instead of
propagating a `RegistryUnavailable` error. -/
theorem stale_snapshot_not_served_cex :
    (get_agent_catalog_from_registry ⟨some [sampleAlerts], some 0⟩ 1000
        (Except.error ())).result = [] ∧
    (get_agent_catalog_from_registry ⟨some [sampleAlerts], some 0⟩ 1000
        (Except.error ())).result ≠ [sampleAlerts] ∧
    startup_validation "http://23.92.17.180:6900" true ⟨none, none⟩ 0
        (Except.error ()) = StartupResult.ok [] true := by
  refine ⟨rfl, by decide, rfl⟩

/-- C1 (amended): whenever the cache-hit test fails (no snapshot, an empty
snapshot, or an expired one), a failing registry fetch makes
`get_agent_catalog_from_registry` return the empty list and leave the cache
unchanged — it neither serves a stale snapshot nor propagates an error — and
`startup_validation` still completes (warning only) when the health probe
succeeded. -/
theorem refresh_failure_returns_empty (s : CacheState) (now : Nat) (url : String)
    (h : cache_hit s now = false) :
    get_agent_catalog_from_registry s now (Except.error ()) = ⟨[], true, s⟩ ∧
    startup_validation url true s now (Except.error ()) = StartupResult.ok [] true := by
  constructor
  · simp [get_agent_catalog_from_registry, h]
  · simp [startup_validation, get_agent_catalog_from_registry, h]

/-- Witness for `refresh_failure_returns_empty` at a concrete expired cache. -/
theorem refresh_failure_returns_empty_witness :
    cache_hit ⟨some [sampleAlerts], some 0⟩ 1000 = false ∧
    (get_agent_catalog_from_registry ⟨some [sampleAlerts], some 0⟩ 1000
        (Except.error ()) = ⟨[], true, ⟨some [sampleAlerts], some 0⟩⟩ ∧
      startup_validation "http://23.92.17.180:6900" true ⟨some [sampleAlerts], some 0⟩
        1000 (Except.error ()) = StartupResult.ok [] true) :=
  ⟨by decide,
   refresh_failure_returns_empty ⟨some [sampleAlerts], some 0⟩ 1000
     "http://23.92.17.180:6900" (by decide)⟩

/-- C6 counterexample: the code itself caches an empty snapshot after a
successful fetch that found no alive agents; on the next call, 10 seconds
later (well inside the 5-minute TTL), that cached snapshot exists but the
registry is contacted again and a different result is returned. -/
theorem empty_snapshot_refetched_cex :
    (get_agent_catalog_from_registry ⟨none, none⟩ 0 (Except.ok [])).state =
      ⟨some [], some 0⟩ ∧
    (10 : Nat) - 0 < catalog_cache_ttl ∧
    (get_agent_catalog_from_registry ⟨some [], some 0⟩ 10
        (Except.ok [sampleAlerts])).networkUsed = true ∧
    (get_agent_catalog_from_registry ⟨some [], some 0⟩ 10
        (Except.ok [sampleAlerts])).result ≠ [] := by
  refine ⟨rfl, by decide, rfl, by decide⟩

/-- C6 (amended): while a NON-EMPTY cached snapshot exists and its age is
within the 5-minute TTL, `get_agent_catalog_from_registry` performs zero
network calls, returns exactly the cached snapshot, and leaves the cache
state unchanged. -/
theorem ttl_cache_hit_zero_network (c : List AgentInfo) (t now : Nat)
    (fetch : Except Unit (List AgentInfo))
    (h1 : c ≠ []) (h2 : now - t < catalog_cache_ttl) :
    get_agent_catalog_from_registry ⟨some c, some t⟩ now fetch =
      ⟨c, false, ⟨some c, some t⟩⟩ := by
  have hhit : cache_hit ⟨some c, some t⟩ now = true := by
    cases c with
    | nil => exact absurd rfl h1
    | cons a l => simp [cache_hit, h2]
  simp [get_agent_catalog_from_registry, hhit]

/-- Witness for `ttl_cache_hit_zero_network` at a concrete fresh cache. -/
theorem ttl_cache_hit_zero_network_witness :
    (([sampleAlerts] : List AgentInfo) ≠ [] ∧ (10 : Nat) - 0 < catalog_cache_ttl) ∧
    get_agent_catalog_from_registry ⟨some [sampleAlerts], some 0⟩ 10
        (Except.error ()) = ⟨[sampleAlerts], false, ⟨some [sampleAlerts], some 0⟩⟩ :=
  ⟨⟨by decide, by decide⟩,
   ttl_cache_hit_zero_network [sampleAlerts] 0 10 (Except.error ())
     (by decide) (by decide)⟩

/-- C2 counterexample: when the only transport attempt fails with a
connection error, `call_agent_api` returns a failure dict after exactly ONE
total transport attempt — zero fallback attempts are made — and
`SlimAgentClient.call_agent` likewise re-raises its send failure after its
single attempt with no fallback. -/
theorem preferred_failure_zero_fallback_attempts_cex :
    call_agent_api "mbta-alerts" (HttpOutcome.httpError "Connection refused") =
      (Except.ok ⟨"Error calling agent mbta-alerts: Connection refused", true,
        "mbta-alerts"⟩, 1) ∧
    SlimAgentClient.call_agent ["alerts", "planner", "stopfinder"] "alerts"
        (Except.error "timeout") = (Except.error "timeout", 1) :=
  ⟨rfl, rfl⟩

/-- C2 (amended): no fallback transport exists. Every `call_agent_api`
invocation makes exactly one transport attempt whatever the outcome, and on
an HTTP error it returns the error dict directly; `SlimAgentClient.call_agent`
makes at most one transport attempt and, when its single send fails for an
initialized client, re-raises that failure unchanged. -/
theorem transport_no_fallback (name e : String) (o : HttpOutcome)
    (clients : List String) (aname e2 : String)
    (send : Except String SlimResponse)
    (h : clients.contains aname = true) :
    (call_agent_api name o).2 = 1 ∧
    (call_agent_api name (HttpOutcome.httpError e)).1 =
      Except.ok ⟨"Error calling agent " ++ name ++ ": " ++ e, true, name⟩ ∧
    (SlimAgentClient.call_agent clients aname send).2 ≤ 1 ∧
    SlimAgentClient.call_agent clients aname (Except.error e2) =
      (Except.error e2, 1) := by
  refine ⟨?_, rfl, ?_, ?_⟩
  · cases o with
    | ok env =>
      cases hb : (env.typ == "response" && env.payload.isSome) with
      | true => simp [call_agent_api, hb]
      | false => simp [call_agent_api, hb]
    | httpError e3 => rfl
    | exn e3 => rfl
  · unfold SlimAgentClient.call_agent
    cases hcl : clients.contains aname with
    | true =>
      cases send with
      | ok resp => simp
      | error e3 => simp
    | false => simp
  · unfold SlimAgentClient.call_agent
    rw [if_pos h]

/-- Witness for `transport_no_fallback` at concrete transports. -/
theorem transport_no_fallback_witness :
    (["alerts", "planner", "stopfinder"] : List String).contains "planner" = true ∧
    ((call_agent_api "mbta-alerts" (HttpOutcome.httpError "Connection refused")).2 = 1 ∧
      (call_agent_api "mbta-alerts" (HttpOutcome.httpError "Connection refused")).1 =
        Except.ok ⟨"Error calling agent " ++ "mbta-alerts" ++ ": " ++ "Connection refused",
          true, "mbta-alerts"⟩ ∧
      (SlimAgentClient.call_agent ["alerts", "planner", "stopfinder"] "planner"
          (Except.ok ⟨some "ok", "repr"⟩)).2 ≤ 1 ∧
      SlimAgentClient.call_agent ["alerts", "planner", "stopfinder"] "planner"
          (Except.error "boom") = (Except.error "boom", 1)) :=
  ⟨by decide,
   transport_no_fallback "mbta-alerts" "Connection refused"
     (HttpOutcome.httpError "Connection refused")
     ["alerts", "planner", "stopfinder"] "planner" "boom"
     (Except.ok ⟨some "ok", "repr"⟩) (by decide)⟩

/-- C3 counterexample: with two matched agents — the exact situation in which
the claim requires the decomposer to be invoked — the compiled graph contains
no decomposition node at all, and both agents are called with the original
user query verbatim. -/
theorem two_matched_no_decomposer_cex :
    "decompose" ∉ graph_nodes ∧
    graph_nodes = ["semantic_discovery", "execute_agents", "synthesize"] ∧
    (execute_agents_node
        [⟨"a1", "http://h:1", "d1", [], true⟩, ⟨"a2", "http://h:2", "d2", [], true⟩]
        "original query"
        (fun _ => HttpOutcome.ok ⟨"response", some (some "ok"), false, ""⟩)
        ["a1", "a2"]).calls =
      [("a1", "original query"), ("a2", "original query")] := by
  refine ⟨by decide, rfl, by decide⟩

/-- C3 (amended): there is no query decomposer. The graph built by
`build_mbta_graph` consists solely of the discovery, execute and synthesize
nodes, and in the Execute stage every matched agent found in the catalog is
called with the original user query verbatim (equivalently: the decomposition
map is always absent, so every agent falls back to the original query). -/
theorem no_decomposition_all_calls_verbatim (catalog : List AgentInfo)
    (q : String) (net : String → HttpOutcome) (matched : List String) :
    graph_nodes = ["semantic_discovery", "execute_agents", "synthesize"] ∧
    (execute_agents_node catalog q net matched).calls =
      (matched.filter (fun i => (findAgent catalog i).isSome)).map (fun i => (i, q)) := by
  refine ⟨rfl, ?_⟩
  simp [execute_agents_node, execAgentsLoop_eq]

/-- C4: the Execute stage processes every matched agent regardless of earlier
failures: `agents_called` is exactly the in-order list of labels of the
catalog-resident matched agents — the bare id on success, the id suffixed
`" (failed)"` when the call returned an error result, and `" (error)"` when
it raised — and `agent_responses` likewise collects one entry per
catalog-resident matched agent. -/
theorem execute_isolates_failures_and_annotates (catalog : List AgentInfo)
    (q : String) (net : String → HttpOutcome) (matched : List String) :
    (execute_agents_node catalog q net matched).agents_called =
      matched.filterMap (fun i =>
        if (findAgent catalog i).isSome then some (call_label net i) else none) ∧
    (execute_agents_node catalog q net matched).agent_responses =
      matched.filterMap (fun i => (findAgent catalog i).map (fun _ => call_record net i)) := by
  constructor <;> simp [execute_agents_node, execAgentsLoop_eq]

/-- Conditional `filterMap` over the found agents coincides with mapping the
label function over the filtered list. -/
theorem filterMap_labels_eq (catalog : List AgentInfo)
    (net : String → HttpOutcome) (ms : List String) :
    ms.filterMap (fun i =>
      if (findAgent catalog i).isSome then some (call_label net i) else none) =
    (ms.filter (fun i => (findAgent catalog i).isSome)).map
      (fun i => call_label net i) := by
  induction ms with
  | nil => rfl
  | cons j rest ih =>
    cases hj : (findAgent catalog j).isSome with
    | true => simp [hj, ih]
    | false => simp [hj, ih]

/-- C9: a matched agent id absent from the execution-time catalog is silently
skipped: the matched list flows through unchanged, no call is made for that
id, no response entry carries it, and `agents_called` consists exactly of the
labels of the agents that WERE found — so the skipped id contributes no entry,
plain or annotated. -/
theorem unknown_agent_silently_skipped (catalog : List AgentInfo) (q : String)
    (net : String → HttpOutcome) (matched : List String) (i : String)
    (h1 : i ∈ matched) (h2 : findAgent catalog i = none) :
    (execute_agents_node catalog q net matched).matched_agents = matched ∧
    ((execute_agents_node catalog q net matched).calls.all
      (fun c => c.1 != i)) = true ∧
    ((execute_agents_node catalog q net matched).agent_responses.all
      (fun r => r.agent != i)) = true ∧
    (execute_agents_node catalog q net matched).agents_called =
      (matched.filter (fun j => (findAgent catalog j).isSome)).map
        (fun j => call_label net j) := by
  refine ⟨rfl, ?_, ?_, ?_⟩
  · simp only [execute_agents_node, execAgentsLoop_eq, List.all_eq_true]
    intro c hc
    rw [List.mem_map] at hc
    obtain ⟨j, hj, hcj⟩ := hc
    rw [List.mem_filter] at hj
    cases hcj
    simp only [bne_iff_ne, ne_eq]
    intro hji
    rw [hji, h2] at hj
    simp at hj
  · simp only [execute_agents_node, execAgentsLoop_eq, List.all_eq_true]
    intro r hr
    rw [List.mem_filterMap] at hr
    obtain ⟨j, hj, hrj⟩ := hr
    cases hfj : findAgent catalog j with
    | none => rw [hfj] at hrj; simp at hrj
    | some info =>
      rw [hfj] at hrj
      rw [Option.map_some'] at hrj
      rw [Option.some_inj] at hrj
      cases hrj
      rw [call_record_agent]
      simp only [bne_iff_ne, ne_eq]
      intro hji
      rw [hji, h2] at hfj
      simp at hfj
  · simp only [execute_agents_node, execAgentsLoop_eq]
    exact filterMap_labels_eq catalog net matched

/-- Witness for `unknown_agent_silently_skipped`: a two-element match list
whose second id is missing from the catalog; with the surviving call
succeeding, `agents_called = ["a1"]` is a strict subset of
`matched_agents = ["a1", "ghost"]` even though no call failed. -/
theorem unknown_agent_silently_skipped_witness :
    ("ghost" ∈ ["a1", "ghost"] ∧
      findAgent [⟨"a1", "http://h:1", "d1", [], true⟩] "ghost" = none) ∧
    ((execute_agents_node [⟨"a1", "http://h:1", "d1", [], true⟩] "q"
        (fun _ => HttpOutcome.ok ⟨"response", some (some "ok"), false, ""⟩)
        ["a1", "ghost"]).matched_agents = ["a1", "ghost"] ∧
      ((execute_agents_node [⟨"a1", "http://h:1", "d1", [], true⟩] "q"
        (fun _ => HttpOutcome.ok ⟨"response", some (some "ok"), false, ""⟩)
        ["a1", "ghost"]).calls.all (fun c => c.1 != "ghost")) = true ∧
      ((execute_agents_node [⟨"a1", "http://h:1", "d1", [], true⟩] "q"
        (fun _ => HttpOutcome.ok ⟨"response", some (some "ok"), false, ""⟩)
        ["a1", "ghost"]).agent_responses.all (fun r => r.agent != "ghost")) = true ∧
      (execute_agents_node [⟨"a1", "http://h:1", "d1", [], true⟩] "q"
        (fun _ => HttpOutcome.ok ⟨"response", some (some "ok"), false, ""⟩)
        ["a1", "ghost"]).agents_called =
        ((["a1", "ghost"] : List String).filter
          (fun j => (findAgent [⟨"a1", "http://h:1", "d1", [], true⟩] j).isSome)).map
          (fun j => call_label
            (fun _ => HttpOutcome.ok ⟨"response", some (some "ok"), false, ""⟩) j)) ∧
    (execute_agents_node [⟨"a1", "http://h:1", "d1", [], true⟩] "q"
        (fun _ => HttpOutcome.ok ⟨"response", some (some "ok"), false, ""⟩)
        ["a1", "ghost"]).agents_called = ["a1"] :=
  ⟨⟨by decide, by decide⟩,
   unknown_agent_silently_skipped [⟨"a1", "http://h:1", "d1", [], true⟩] "q"
     (fun _ => HttpOutcome.ok ⟨"response", some (some "ok"), false, ""⟩)
     ["a1", "ghost"] "ghost" (by decide) (by decide),
   by decide⟩

/-- C5 counterexample: one failure plus one SUCCESS whose text is empty — so
not all results were failures — yet the synthesizer returns the fixed
"agents unavailable" message and appends no advisory note, where the claim
requires the advisory-note path whenever some result succeeded. -/
theorem empty_success_with_failure_cex :
    synthesize_response_node ["a1", "a2"] "q"
        [⟨"boom", true, "a1"⟩, ⟨"", false, "a2"⟩] = all_failed_message ∧
    (([⟨"boom", true, "a1"⟩, ⟨"", false, "a2"⟩] : List CallResult).any
      (fun r => !r.error)) = true ∧
    pyIn advisory_note all_failed_message = false := by
  refine ⟨rfl, by decide, by decide⟩

/-- C5 (amended): with a non-empty matched list, the synthesizer concatenates
the non-blank success texts in their original order separated by a blank
line; if any failure occurred and at least one success produced non-blank
text, the single advisory note is appended; if NO success produced non-blank
text, the fixed "agents unavailable" message is returned when a failure
occurred (and the rephrase message otherwise). -/
theorem synthesis_merge_characterization (matched : List String) (q : String)
    (rs : List CallResult) (h : matched ≠ []) :
    synthesize_response_node matched q rs =
      (if (rs.filterMap (fun r =>
            if !r.error && r.response != "" && pyStrip r.response != "" then some r.response
            else none)).isEmpty then
        (if rs.any (fun r => r.error) then all_failed_message else incomplete_message)
       else
        String.intercalate "\n\n" (rs.filterMap (fun r =>
            if !r.error && r.response != "" && pyStrip r.response != "" then some r.response
            else none)) ++
          (if rs.any (fun r => r.error) then advisory_note else "")) := by
  unfold synthesize_response_node
  have hm : matched.isEmpty = false := by
    cases matched with
    | nil => exact absurd rfl h
    | cons a l => rfl
  rw [hm]
  simp only [Bool.false_eq_true, if_false]
  rw [collectResponses_eq]
  simp only [filter_texts_no_empty]
  cases he : (rs.filterMap (fun r =>
      if !r.error && r.response != "" && pyStrip r.response != "" then some r.response
      else none)).isEmpty with
  | true => simp [he]
  | false => simp [he]

/-- Witness for `synthesis_merge_characterization`: one success and one
failure merge into the success text followed by the advisory note. -/
theorem synthesis_merge_characterization_witness :
    (["a"] : List String) ≠ [] ∧
    synthesize_response_node ["a"] "q"
        [⟨"t1", false, "a"⟩, ⟨"boom", true, "b"⟩] = "t1" ++ advisory_note :=
  ⟨by decide, by
    have hx := synthesis_merge_characterization ["a"] "q"
      [⟨"t1", false, "a"⟩, ⟨"boom", true, "b"⟩] (by decide)
    rw [hx]
    decide⟩

/-- C10: on the no-match path the greeting-versus-hint decision is a pure
substring test — the greeting is returned iff any of the five cue words
occurs as a substring anywhere in the lowercased message — and every
no-match message yields either the greeting or the capability hint. -/
theorem greeting_by_substring_cue (q : String) (rs : List CallResult) :
    (synthesize_response_node [] q rs = greeting_message ↔
      greeting_words.any (fun w => pyIn w (pyLower q)) = true) ∧
    (synthesize_response_node [] q rs = greeting_message ∨
      synthesize_response_node [] q rs = capability_hint_message) := by
  have hne : capability_hint_message ≠ greeting_message := by decide
  unfold synthesize_response_node
  simp only [List.isEmpty_nil, if_true]
  cases hb : greeting_words.any (fun w => pyIn w (pyLower q)) with
  | true => simp [hb]
  | false => simp [hb, hne]

set_option maxRecDepth 8192 in
/-- Witness for `greeting_by_substring_cue`: the message "Which line is
fastest?" is not a greeting, yet contains "hi" inside "which", so the
greeting is returned. -/
theorem greeting_by_substring_cue_witness :
    ((synthesize_response_node [] "Which line is fastest?" [] = greeting_message ↔
        greeting_words.any (fun w => pyIn w (pyLower "Which line is fastest?")) = true) ∧
      (synthesize_response_node [] "Which line is fastest?" [] = greeting_message ∨
        synthesize_response_node [] "Which line is fastest?" [] = capability_hint_message)) ∧
    pyIn "hi" (pyLower "Which line is fastest?") = true ∧
    synthesize_response_node [] "Which line is fastest?" [] = greeting_message :=
  ⟨greeting_by_substring_cue "Which line is fastest?" [], by decide, by decide⟩

/-- A run's `matched_agents` output is the id list produced by discovery. -/
theorem run_graph_matched_agents (cs : CacheState) (now1 now2 : Nat)
    (f1 f2 : Except Unit (List AgentInfo))
    (llm : Except Unit (Option (List String)))
    (net : String → HttpOutcome) (q cid : String) :
    (run_graph cs now1 now2 f1 f2 llm net q cid).matched_agents =
      (semantic_agent_discovery
        (get_agent_catalog_from_registry cs now1 f1).result llm).map (fun a => a.name) := by
  simp only [run_graph]
  cases route_after_discovery ((semantic_agent_discovery
      (get_agent_catalog_from_registry cs now1 f1).result llm).map (fun a => a.name)) <;> rfl

/-- C7: when the catalog is empty or the semantic matcher fails with any
downstream error, discovery returns an empty match list (no exception), the
router sends an empty match list straight to synthesis, and the run performs
no agent calls; moreover any run whose matched list is empty performs no
agent calls and records none as called. -/
theorem matching_failure_degrades_to_no_match (cs : CacheState) (now1 now2 : Nat)
    (fetch1 fetch2 : Except Unit (List AgentInfo))
    (llm : Except Unit (Option (List String)))
    (net : String → HttpOutcome) (q cid : String)
    (h : (get_agent_catalog_from_registry cs now1 fetch1).result = [] ∨
      llm = Except.error ()) :
    semantic_agent_discovery
      (get_agent_catalog_from_registry cs now1 fetch1).result llm = [] ∧
    route_after_discovery [] = Route.synthesize ∧
    (run_graph cs now1 now2 fetch1 fetch2 llm net q cid).matched_agents = [] ∧
    (run_graph cs now1 now2 fetch1 fetch2 llm net q cid).agents_called = [] ∧
    (run_graph cs now1 now2 fetch1 fetch2 llm net q cid).calls = [] ∧
    (∀ llm2 : Except Unit (Option (List String)),
      (run_graph cs now1 now2 fetch1 fetch2 llm2 net q cid).matched_agents = [] →
      (run_graph cs now1 now2 fetch1 fetch2 llm2 net q cid).calls = [] ∧
      (run_graph cs now1 now2 fetch1 fetch2 llm2 net q cid).agents_called = []) := by
  have hd : semantic_agent_discovery
      (get_agent_catalog_from_registry cs now1 fetch1).result llm = [] := by
    rcases h with hc | hl
    · rw [hc]; rfl
    · rw [hl]
      unfold semantic_agent_discovery
      split <;> rfl
  have hgen : ∀ llm2 : Except Unit (Option (List String)),
      (run_graph cs now1 now2 fetch1 fetch2 llm2 net q cid).matched_agents = [] →
      (run_graph cs now1 now2 fetch1 fetch2 llm2 net q cid).calls = [] ∧
      (run_graph cs now1 now2 fetch1 fetch2 llm2 net q cid).agents_called = [] := by
    intro llm2 hm
    rw [run_graph_matched_agents] at hm
    constructor <;> simp [run_graph, hm, route_after_discovery]
  refine ⟨hd, rfl, ?_, ?_, ?_, hgen⟩
  · rw [run_graph_matched_agents, hd]
    rfl
  · exact (hgen llm (by rw [run_graph_matched_agents, hd]; rfl)).2
  · exact (hgen llm (by rw [run_graph_matched_agents, hd]; rfl)).1

/-- Witness for `matching_failure_degrades_to_no_match`: cold start with the
registry fetch failing; discovery yields no match and the run makes no agent
calls. -/
theorem matching_failure_degrades_to_no_match_witness :
    (get_agent_catalog_from_registry ⟨none, none⟩ 0 (Except.error ())).result = [] ∧
    (run_graph ⟨none, none⟩ 0 0 (Except.error ()) (Except.error ())
        (Except.ok (some ["mbta-alerts"]))
        (fun _ => HttpOutcome.httpError "down") "Red Line delays?" "t1").matched_agents = [] ∧
    (run_graph ⟨none, none⟩ 0 0 (Except.error ()) (Except.error ())
        (Except.ok (some ["mbta-alerts"]))
        (fun _ => HttpOutcome.httpError "down") "Red Line delays?" "t1").calls = [] ∧
    (run_graph ⟨none, none⟩ 0 0 (Except.error ()) (Except.error ())
        (Except.ok (some ["mbta-alerts"]))
        (fun _ => HttpOutcome.httpError "down") "Red Line delays?" "t1").agents_called = [] :=
  ⟨by decide,
   (matching_failure_degrades_to_no_match ⟨none, none⟩ 0 0 (Except.error ())
     (Except.error ()) (Except.ok (some ["mbta-alerts"]))
     (fun _ => HttpOutcome.httpError "down") "Red Line delays?" "t1"
     (Or.inl (by decide))).2.2.1,
   (matching_failure_degrades_to_no_match ⟨none, none⟩ 0 0 (Except.error ())
     (Except.error ()) (Except.ok (some ["mbta-alerts"]))
     (fun _ => HttpOutcome.httpError "down") "Red Line delays?" "t1"
     (Or.inl (by decide))).2.2.2.2.1,
   (matching_failure_degrades_to_no_match ⟨none, none⟩ 0 0 (Except.error ())
     (Except.error ()) (Except.ok (some ["mbta-alerts"]))
     (fun _ => HttpOutcome.httpError "down") "Red Line delays?" "t1"
     (Or.inl (by decide))).2.2.2.1⟩

/-- C8 counterexample: two runs identical except for the transport outcome —
one served successfully over HTTP, one failing — produce different
`agents_called` but BYTE-IDENTICAL `metadata`: the metadata records neither
which transport path served the request (no transport information at all)
nor any decomposition map. -/
theorem metadata_ignores_transport_cex :
    (process_message "http://r" ⟨none, none⟩ 0 0
        (Except.ok [⟨"a1", "http://h:1", "alerts info", [], true⟩]) (Except.ok [])
        (Except.ok (some ["a1"]))
        (fun _ => HttpOutcome.ok ⟨"response", some (some "text"), false, ""⟩)
        "q" "c").agents_called = ["a1"] ∧
    (process_message "http://r" ⟨none, none⟩ 0 0
        (Except.ok [⟨"a1", "http://h:1", "alerts info", [], true⟩]) (Except.ok [])
        (Except.ok (some ["a1"]))
        (fun _ => HttpOutcome.httpError "boom")
        "q" "c").agents_called = ["a1 (failed)"] ∧
    (process_message "http://r" ⟨none, none⟩ 0 0
        (Except.ok [⟨"a1", "http://h:1", "alerts info", [], true⟩]) (Except.ok [])
        (Except.ok (some ["a1"]))
        (fun _ => HttpOutcome.ok ⟨"response", some (some "text"), false, ""⟩)
        "q" "c").metadata =
      (process_message "http://r" ⟨none, none⟩ 0 0
        (Except.ok [⟨"a1", "http://h:1", "alerts info", [], true⟩]) (Except.ok [])
        (Except.ok (some ["a1"]))
        (fun _ => HttpOutcome.httpError "boom")
        "q" "c").metadata := by
  refine ⟨by decide, by decide, by decide⟩

/-- C8 (amended): `process_message` returns the six-field record
`{response, intent, confidence, matched_agents, agents_called, metadata}`
projected from the final graph state, where `metadata` holds exactly the
conversation id, the fixed graph-execution status, the LLM matching
decision, the fixed discovery-mode string and the registry URL — and is
therefore independent of the transport outcomes, recording neither the
transport path that served the request nor any decomposition map. -/
theorem process_message_fields_and_metadata
    (ru : String) (cs : CacheState) (now1 now2 now2' : Nat)
    (f1 f2 f2' : Except Unit (List AgentInfo))
    (llm : Except Unit (Option (List String)))
    (net net' : String → HttpOutcome) (q cid : String) :
    (process_message ru cs now1 now2 f1 f2 llm net q cid).response =
      (run_graph cs now1 now2 f1 f2 llm net q cid).final_response ∧
    (process_message ru cs now1 now2 f1 f2 llm net q cid).intent =
      (run_graph cs now1 now2 f1 f2 llm net q cid).intent ∧
    (process_message ru cs now1 now2 f1 f2 llm net q cid).confidence =
      (run_graph cs now1 now2 f1 f2 llm net q cid).confidence ∧
    (process_message ru cs now1 now2 f1 f2 llm net q cid).matched_agents =
      (run_graph cs now1 now2 f1 f2 llm net q cid).matched_agents ∧
    (process_message ru cs now1 now2 f1 f2 llm net q cid).agents_called =
      (run_graph cs now1 now2 f1 f2 llm net q cid).agents_called ∧
    (process_message ru cs now1 now2 f1 f2 llm net q cid).metadata =
      { conversation_id := cid, graph_execution := "completed",
        llm_matching := (run_graph cs now1 now2 f1 f2 llm net q cid).llm_matching_decision,
        discovery := "semantic-description-based", registry_url := ru } ∧
    (process_message ru cs now1 now2 f1 f2 llm net q cid).metadata =
      (process_message ru cs now1 now2' f1 f2' llm net' q cid).metadata ∧
    metadata_keys =
      ["conversation_id", "graph_execution", "llm_matching", "discovery", "registry_url"] := by
  refine ⟨rfl, rfl, rfl, rfl, rfl, rfl, ?_, rfl⟩
  simp only [process_message]
  rw [run_graph_llm_decision, run_graph_llm_decision]

end MBTA
